import Mathlib

/-!
Shallow embedding of the CRM webhook handlers (Netlify functions backed by a
Supabase store) and proofs about them.

Modelling conventions, shared by every definition below:

* JavaScript `null`/`undefined` string values are `Option String`; JS
  truthiness of a string value (`null`, `undefined` and `""` are falsy) is
  `jsTruthyStr`.
* Calendar timestamps are epoch milliseconds (`Int`), the time value of a JS
  `Date`.  The `YYYY-MM-DD` date strings produced by `formatTimestamp` are in
  order-preserving bijection with UTC day numbers (`Int.fdiv ms msPerDay`),
  and `new Date("YYYY-MM-DD")` recovers exactly `day * msPerDay`; inside the
  database models an interaction date is therefore carried as its UTC day
  number, and the date comparison `new Date(a) > new Date(b)` performed by
  `updateContactLastInteraction` is the comparison of day numbers.
* The remote data store is a pair of in-memory lists (contacts,
  interactions); a Supabase `insert` appends, `eq(...).limit(1)` /
  `.single()` is `List.find?`.  Store errors (which the JS code receives as
  an `error` field and turns into a thrown exception) are injected through
  explicit fault flags, one per call site.
-/

/-- JS truthiness of a nullable string: `null`/`undefined` and `""` are falsy. -/
def jsTruthyStr : Option String → Bool
  | none => false
  | some s => s ≠ ""

/-- JS `a || d` for a nullable string `a` and a string default `d`. -/
def jsOrStr (a : Option String) (d : String) : String :=
  match a with
  | none => d
  | some s => if s = "" then d else s

/-- JS `a || null` for a nullable string: normalizes a falsy value to `null`. -/
def jsOrNullStr (a : Option String) : Option String :=
  match a with
  | none => none
  | some s => if s = "" then none else some s

/-! ## formatPhoneNumber (whatsapp-webhook.js lines 24-28, part_001 24-30, part_002/003 9-13)

`phone.replace(/[^\d+]/g, '')` keeps exactly the decimal digits and `'+'`
characters of the input; `cleaned.startsWith('+')` is tested by matching on
the first kept character. -/

/-- The character class kept by the regex replace: digits and `'+'`. -/
def keepPhoneChar (c : Char) : Bool := c.isDigit || c = '+'

/-- The `cleaned` intermediate of `formatPhoneNumber`. -/
def cleanPhone (s : String) : String := ⟨s.data.filter keepPhoneChar⟩

/-- `formatPhoneNumber` from the source: falsy input gives `null`; otherwise
strip everything but digits and `'+'` and ensure a leading `'+'`
(`cleaned.startsWith('+')` is the test that the first character is `'+'`). -/
def formatPhoneNumber (phone : Option String) : Option String :=
  match phone with
  | none => none
  | some s =>
    if s = "" then none
    else
      some (if (cleanPhone s).data.head? = some '+' then cleanPhone s
            else "+" ++ cleanPhone s)

/-! ## updateContactLastInteraction decision core
(whatsapp-webhook.js lines 124-151, part_003 lines 86-113)

The stored `last_interaction` is `Option Int` (a date as a time value, `none`
for SQL null).  The function returns the value stored after the call together
with whether an UPDATE was issued: update exactly when the current value is
null or the new date is strictly later. -/

/-- Decision logic of `updateContactLastInteraction`: given the contact's
current `last_interaction` and the incoming interaction date, return the
resulting stored value and whether a write was performed. -/
def updateContactLastInteraction (lastInteraction : Option Int)
    (interactionDate : Int) : Option Int × Bool :=
  match lastInteraction with
  | none => (some interactionDate, true)
  | some d =>
    if d < interactionDate then (some interactionDate, true)
    else (some d, false)

/-- Maximum of a nullable date and a date, treating `null` as minus infinity. -/
def maxWithNull : Option Int → Int → Int
  | none, n => n
  | some d, n => max d n

/-- Order on nullable dates with `null` as minus infinity. -/
def dateLeOpt : Option Int → Option Int → Bool
  | none, _ => true
  | some _, none => false
  | some a, some b => decide (a ≤ b)

/-- C1: updateContactLastInteraction stores max(D, N) with null as minus
infinity, never decreases the field, and writes exactly when the current
value is null or the new date is strictly later. -/
theorem updateContactLastInteraction_max (D : Option Int) (N : Int) :
    (updateContactLastInteraction D N).1 = some (maxWithNull D N) ∧
    dateLeOpt D (updateContactLastInteraction D N).1 = true ∧
    ((updateContactLastInteraction D N).2 = true ↔
      D = none ∨ ∃ d, D = some d ∧ d < N) := by
  cases D with
  | none =>
    simp [updateContactLastInteraction, maxWithNull, dateLeOpt]
  | some d =>
    by_cases h : d < N
    · refine ⟨?_, ?_, ?_⟩
      · simp [updateContactLastInteraction, maxWithNull, h, max_eq_right (le_of_lt h)]
      · simp [updateContactLastInteraction, dateLeOpt, h, le_of_lt h]
      · simp [updateContactLastInteraction, h]
    · refine ⟨?_, ?_, ?_⟩
      · simp [updateContactLastInteraction, maxWithNull, h, max_eq_left (not_lt.mp h)]
      · simp [updateContactLastInteraction, dateLeOpt, h]
      · simp [updateContactLastInteraction, h]

/-- Witness for C1 at a concrete input. -/
theorem updateContactLastInteraction_max_witness :
    (updateContactLastInteraction (some 3) 5).1 = some (maxWithNull (some 3) 5) ∧
    dateLeOpt (some 3) (updateContactLastInteraction (some 3) 5).1 = true ∧
    ((updateContactLastInteraction (some 3) 5).2 = true ↔
      (some 3 : Option Int) = none ∨ ∃ d, (some 3 : Option Int) = some d ∧ d < 5) :=
  updateContactLastInteraction_max (some 3) 5

/-- C4 counterexample: the claim fails as stated.  A null input yields null
rather than a string, and an input with an interior `'+'` yields a string
whose characters after the leading `'+'` are not all digits. -/
theorem formatPhoneNumber_counterexample :
    formatPhoneNumber none = none ∧
    formatPhoneNumber (some "12+34") = some "+12+34" ∧
    (("+12+34" : String).data.drop 1).all Char.isDigit = false := by
  refine ⟨rfl, ?_, by decide⟩
  decide

/-- C4 amended: for a non-empty input whose kept characters (digits and plus
signs) contain `'+'` at most as the first kept character, the result is a
string whose first character is `'+'` and whose remaining characters are all
decimal digits; null and empty inputs return null instead of a string. -/
theorem formatPhoneNumber_shape (s : String) (hne : s ≠ "")
    (h : ((cleanPhone s).data.drop 1).all Char.isDigit = true) :
    (∃ t, formatPhoneNumber (some s) = some t ∧
      t.data.head? = some '+' ∧ (t.data.drop 1).all Char.isDigit = true) ∧
    formatPhoneNumber none = none ∧ formatPhoneNumber (some "") = none := by
  refine ⟨?_, rfl, rfl⟩
  simp only [formatPhoneNumber]
  rw [if_neg hne]
  by_cases hplus : (cleanPhone s).data.head? = some '+'
  · exact ⟨cleanPhone s, by rw [if_pos hplus], hplus, h⟩
  · refine ⟨"+" ++ cleanPhone s, by rw [if_neg hplus], ?_, ?_⟩
    · simp
    · rcases hd : (cleanPhone s).data with _ | ⟨c, rest⟩
      · simp [hd]
      · have hcmem : c ∈ s.data.filter keepPhoneChar := by
          have hdata : s.data.filter keepPhoneChar = c :: rest := hd
          rw [hdata]; exact List.mem_cons_self _ _
        have hc : keepPhoneChar c = true := (List.mem_filter.mp hcmem).2
        have hcne : c ≠ '+' := by
          intro hEq
          exact hplus (by rw [hd, hEq]; rfl)
        have hcdigit : c.isDigit = true := by
          simpa [keepPhoneChar, hcne] using hc
        have hrest : rest.all Char.isDigit = true := by
          have h' := h
          rw [hd] at h'
          simpa using h'
        simp [hd, hcdigit, hrest]

/-- Witness for C4 amended at a concrete phone string. -/
theorem formatPhoneNumber_shape_witness :
    ("+1 (555) 123-4567" : String) ≠ "" ∧
    ((cleanPhone "+1 (555) 123-4567").data.drop 1).all Char.isDigit = true ∧
    ((∃ t, formatPhoneNumber (some "+1 (555) 123-4567") = some t ∧
      t.data.head? = some '+' ∧ (t.data.drop 1).all Char.isDigit = true) ∧
    formatPhoneNumber none = none ∧ formatPhoneNumber (some "") = none) :=
  ⟨by decide, by decide, formatPhoneNumber_shape _ (by decide) (by decide)⟩

/-! ## Date handling (formatTimestamp)

A JS `Date` is its time value in epoch milliseconds.  `toISOString` renders
the UTC calendar fields; the UTC calendar date of a time value is computed by
the standard civil-from-days conversion. -/

/-- Milliseconds per day. -/
def msPerDay : Int := 86400000

/-- Civil (proleptic Gregorian) date from a count of days since 1970-01-01,
returning (year, month, day). -/
def civilFromDays (z0 : Int) : Int × Int × Int :=
  let z := z0 + 719468
  let era := Int.fdiv z 146097
  let doe := z - era * 146097
  let yoe := Int.fdiv (doe - Int.fdiv doe 1460 + Int.fdiv doe 36524 - Int.fdiv doe 146096) 365
  let y := yoe + era * 400
  let doy := doe - (365 * yoe + Int.fdiv yoe 4 - Int.fdiv yoe 100)
  let mp := Int.fdiv (5 * doy + 2) 153
  let d := doy - Int.fdiv (153 * mp + 2) 5 + 1
  let m := mp + (if mp < 10 then 3 else -9)
  (y + (if m ≤ 2 then 1 else 0), m, d)

/-- The UTC calendar date (year, month, day) of an epoch-millisecond value. -/
def utcDateOfMs (ms : Int) : Int × Int × Int :=
  civilFromDays (Int.fdiv ms msPerDay)

/-- Two-digit zero-padded decimal rendering. -/
def pad2 (n : Int) : List Char :=
  [Nat.digitChar (n.toNat / 10 % 10), Nat.digitChar (n.toNat % 10)]

/-- Three-digit zero-padded decimal rendering. -/
def pad3 (n : Int) : List Char :=
  [Nat.digitChar (n.toNat / 100 % 10), Nat.digitChar (n.toNat / 10 % 10),
   Nat.digitChar (n.toNat % 10)]

/-- Four-digit zero-padded decimal rendering. -/
def pad4 (n : Int) : List Char :=
  [Nat.digitChar (n.toNat / 1000 % 10), Nat.digitChar (n.toNat / 100 % 10),
   Nat.digitChar (n.toNat / 10 % 10), Nat.digitChar (n.toNat % 10)]

/-- The `YYYY-MM-DD` character rendering of a (year, month, day) triple. -/
def ymdChars (t : Int × Int × Int) : List Char :=
  pad4 t.1 ++ '-' :: (pad2 t.2.1 ++ '-' :: pad2 t.2.2)

/-- The `YYYY-MM-DD` string rendering of a (year, month, day) triple. -/
def ymdString (t : Int × Int × Int) : String := ⟨ymdChars t⟩

/-- The `HH:mm:ss.sssZ` part of `toISOString`. -/
def timeOfDayChars (ms : Int) : List Char :=
  let msOfDay := Int.emod ms msPerDay
  pad2 (Int.fdiv msOfDay 3600000) ++ ':' ::
    (pad2 (Int.emod (Int.fdiv msOfDay 60000) 60) ++ ':' ::
      (pad2 (Int.emod (Int.fdiv msOfDay 1000) 60) ++ '.' ::
        (pad3 (Int.emod msOfDay 1000) ++ ['Z'])))

/-- Characters of `Date.prototype.toISOString`. -/
def toISOChars (ms : Int) : List Char :=
  ymdChars (utcDateOfMs ms) ++ 'T' :: timeOfDayChars ms

/-- `new Date(ms).toISOString()`. -/
def toISOString (ms : Int) : String := ⟨toISOChars ms⟩

/-- `formatTimestamp` of whatsapp-webhook.js line 31-33 (identical in
part_001 lines 33-38 and part_004 lines 23-25):
`new Date(timestamp).toISOString().split('T')[0]`, i.e. the prefix of the ISO
string up to the first `'T'`. -/
def formatTimestamp (ms : Int) : String :=
  ⟨(toISOChars ms).takeWhile (fun c => c != 'T')⟩

/-- Recognizer for the shape `YYYY-MM-DD`: exactly ten characters, digits in
the date positions and dashes at indexes 4 and 7. -/
def isYMDShape (s : String) : Bool :=
  match s.data with
  | [a, b, c, d, e, f, g, h, i, j] =>
    a.isDigit && b.isDigit && c.isDigit && d.isDigit && e = '-' &&
      f.isDigit && g.isDigit && h = '-' && i.isDigit && j.isDigit
  | _ => false

/-- The English month names used by `toLocaleDateString('en-US', ...)`. -/
def monthLongName : Int → String
  | 1 => "January"
  | 2 => "February"
  | 3 => "March"
  | 4 => "April"
  | 5 => "May"
  | 6 => "June"
  | 7 => "July"
  | 8 => "August"
  | 9 => "September"
  | 10 => "October"
  | 11 => "November"
  | 12 => "December"
  | _ => ""

/-- `formatTimestamp` of part_000 lines 31-38:
`date.toLocaleDateString('en-US', {year:'numeric', month:'long', day:'2-digit'})`,
which renders like `February 26, 2025` (the runtime is taken to be in the
UTC timezone). -/
def formatTimestampLocaleUS (ms : Int) : String :=
  let t := utcDateOfMs ms
  monthLongName t.2.1 ++ " " ++ (⟨pad2 t.2.2⟩ : String) ++ ", " ++ toString t.1

theorem digitChar_mod10_ne_T (n : Nat) : Nat.digitChar (n % 10) ≠ 'T' := by
  have h : n % 10 < 10 := Nat.mod_lt _ (by decide)
  revert h
  generalize n % 10 = k
  intro h
  interval_cases k <;> decide

theorem digitChar_mod10_isDigit (n : Nat) : (Nat.digitChar (n % 10)).isDigit = true := by
  have h : n % 10 < 10 := Nat.mod_lt _ (by decide)
  revert h
  generalize n % 10 = k
  intro h
  interval_cases k <;> decide

theorem takeWhile_append_of_all {p : Char → Bool} (l1 l2 : List Char) (c : Char)
    (h1 : ∀ x ∈ l1, p x = true) (h2 : p c = false) :
    (l1 ++ c :: l2).takeWhile p = l1 := by
  induction l1 with
  | nil => simp [List.takeWhile, h2]
  | cons a l ih =>
    have ha : p a = true := h1 a (List.mem_cons_self _ _)
    simp only [List.cons_append, List.takeWhile_cons, ha, if_true]
    rw [ih (fun x hx => h1 x (List.mem_cons_of_mem _ hx))]

/-- Numeric value of a decimal digit character. -/
def charVal (c : Char) : Nat := c.toNat - 48

/-- Parse a `YYYY-MM-DD` character list back into its (year, month, day). -/
def ofYMDChars : List Char → Option (Int × Int × Int)
  | [a, b, c, d, e, f, g, h, i, j] =>
    if e = '-' ∧ h = '-' then
      some (((charVal a * 1000 + charVal b * 100 + charVal c * 10 + charVal d : Nat) : Int),
            ((charVal f * 10 + charVal g : Nat) : Int),
            ((charVal i * 10 + charVal j : Nat) : Int))
    else none
  | _ => none

/-- Parse a `YYYY-MM-DD` string back into its (year, month, day). -/
def ofYMDString (s : String) : Option (Int × Int × Int) := ofYMDChars s.data

theorem charVal_digitChar (n : Nat) : charVal (Nat.digitChar (n % 10)) = n % 10 := by
  have h : n % 10 < 10 := Nat.mod_lt _ (by decide)
  revert h
  generalize n % 10 = k
  intro h
  interval_cases k <;> decide

theorem ymdChars_all_ne_T (t : Int × Int × Int) :
    ∀ x ∈ ymdChars t, (x != 'T') = true := by
  obtain ⟨y, m, d⟩ := t
  intro x hx
  simp only [ymdChars, pad4, pad2, List.cons_append, List.nil_append, List.mem_cons,
    List.not_mem_nil, or_false] at hx
  rcases hx with h | h | h | h | h | h | h | h | h | h <;> subst h <;>
    first
      | decide
      | (simpa [bne_iff_ne] using digitChar_mod10_ne_T _)

theorem formatTimestamp_eq_ymd (ms : Int) :
    formatTimestamp ms = ymdString (utcDateOfMs ms) := by
  unfold formatTimestamp toISOChars ymdString
  congr 1
  exact takeWhile_append_of_all _ _ _ (ymdChars_all_ne_T _) (by decide)

theorem isYMDShape_ymdString (t : Int × Int × Int) :
    isYMDShape (ymdString t) = true := by
  obtain ⟨y, m, d⟩ := t
  simp only [ymdString, ymdChars, pad4, pad2, List.cons_append, List.nil_append, isYMDShape]
  simp [digitChar_mod10_isDigit]

theorem ofYMD_ymdString (y m d : Int) (hy0 : 0 ≤ y) (hy1 : y ≤ 9999)
    (hm0 : 0 ≤ m) (hm1 : m ≤ 99) (hd0 : 0 ≤ d) (hd1 : d ≤ 99) :
    ofYMDString (ymdString (y, m, d)) = some (y, m, d) := by
  simp only [ofYMDString, ymdString, ymdChars, pad4, pad2, List.cons_append,
    List.nil_append, ofYMDChars, charVal_digitChar]
  rw [if_pos (by simp)]
  simp only [Option.some.injEq, Prod.mk.injEq]
  refine ⟨?_, ?_, ?_⟩ <;> omega

/-- C5 amended: for every time value whose UTC calendar fields are in the
four/two-digit ranges, the `formatTimestamp` shared by whatsapp-webhook.js,
part_001 and part_004 yields exactly the `YYYY-MM-DD` rendering of the UTC
calendar date of the timestamp (shape check and parse-back included).  The
part_000 variant does not (see the counterexample). -/
theorem formatTimestamp_utc_date (ms : Int)
    (hy0 : 0 ≤ (utcDateOfMs ms).1) (hy1 : (utcDateOfMs ms).1 ≤ 9999)
    (hm0 : 0 ≤ (utcDateOfMs ms).2.1) (hm1 : (utcDateOfMs ms).2.1 ≤ 99)
    (hd0 : 0 ≤ (utcDateOfMs ms).2.2) (hd1 : (utcDateOfMs ms).2.2 ≤ 99) :
    formatTimestamp ms = ymdString (utcDateOfMs ms) ∧
    isYMDShape (formatTimestamp ms) = true ∧
    ofYMDString (formatTimestamp ms) = some (utcDateOfMs ms) := by
  refine ⟨formatTimestamp_eq_ymd ms, ?_, ?_⟩
  · rw [formatTimestamp_eq_ymd ms]
    exact isYMDShape_ymdString _
  · rw [formatTimestamp_eq_ymd ms]
    have h := ofYMD_ymdString (utcDateOfMs ms).1 (utcDateOfMs ms).2.1 (utcDateOfMs ms).2.2
      hy0 hy1 hm0 hm1 hd0 hd1
    simpa using h

/-- Witness for C5 amended at the epoch millisecond value of
2025-02-26T00:00:00Z. -/
theorem formatTimestamp_utc_date_witness :
    (0 ≤ (utcDateOfMs 1740528000000).1 ∧ (utcDateOfMs 1740528000000).1 ≤ 9999 ∧
     0 ≤ (utcDateOfMs 1740528000000).2.1 ∧ (utcDateOfMs 1740528000000).2.1 ≤ 99 ∧
     0 ≤ (utcDateOfMs 1740528000000).2.2 ∧ (utcDateOfMs 1740528000000).2.2 ≤ 99) ∧
    (formatTimestamp 1740528000000 = ymdString (utcDateOfMs 1740528000000) ∧
     isYMDShape (formatTimestamp 1740528000000) = true ∧
     ofYMDString (formatTimestamp 1740528000000) = some (utcDateOfMs 1740528000000)) :=
  ⟨⟨by decide, by decide, by decide, by decide, by decide, by decide⟩,
   formatTimestamp_utc_date 1740528000000 (by decide) (by decide) (by decide)
     (by decide) (by decide) (by decide)⟩

/-- C5 counterexample: the part_000 variant of `formatTimestamp` returns a
US-locale long date, not a `YYYY-MM-DD` string. -/
theorem formatTimestampLocaleUS_counterexample :
    formatTimestampLocaleUS 1740528000000 = "February 26, 2025" ∧
    isYMDShape (formatTimestampLocaleUS 1740528000000) = false := by
  constructor
  · decide
  · decide

/-! ## Contacts keyed by email (part_001 lines 306-386, part_002/003 lines 16-63)

The `contacts` table rows carry the fields these handlers read or write.
The store assigns ids; a call that inserts receives the fresh id as a
parameter, and `new Date().toISOString()` receives the current time. -/

structure EContact where
  id : Nat
  email : Option String
  email2 : Option String
  email3 : Option String
  first_name : Option String
  last_name : Option String
  created_at : Option String
  last_interaction : Option Int
deriving DecidableEq, Repr

/-- JS `s.split(' ')` on the character list: split at every single space,
keeping empty segments. -/
def splitOnSpaceAux : List Char → List Char → List (List Char)
  | [], acc => [acc.reverse]
  | c :: rest, acc =>
    if c = ' ' then acc.reverse :: splitOnSpaceAux rest []
    else splitOnSpaceAux rest (c :: acc)

/-- JS `s.split(' ')`. -/
def splitOnSpace (s : String) : List String :=
  (splitOnSpaceAux s.data []).map (fun l => ⟨l⟩)

/-- JS `parts.join(' ')`. -/
def joinSpace : List String → String
  | [] => ""
  | [x] => x
  | x :: xs => x ++ " " ++ joinSpace xs

/-- Name splitting of part_002/003 lines 36-44 and of part_001's
`createContact` lines 341-345 (the two spellings agree: a single token
becomes the first name with a null last name). -/
def splitNameB (name : Option String) : Option String × Option String :=
  match name with
  | none => (none, none)
  | some n =>
    if n = "" then (none, none)
    else
      let parts := splitOnSpace n
      if parts.length > 1 then
        (some (parts.headD ""), some (joinSpace (parts.drop 1)))
      else (some n, none)

/-- Store faults observable inside `findOrCreateContact`: an error from the
select or from the insert (either is caught and turns the result into null). -/
structure FocFaults where
  findFails : Bool
  createFails : Bool
deriving DecidableEq, Repr

/-- `findOrCreateContact` of part_002/003 lines 16-63: select the first
contact whose `email` equals the identifier, otherwise insert a new row and
return it; any store error yields null. -/
def findOrCreateContact (contacts : List EContact) (faults : FocFaults)
    (email : Option String) (name : Option String) (freshId : Nat) (now : Int) :
    Option EContact × List EContact :=
  if faults.findFails then (none, contacts)
  else
    match contacts.find? (fun c => c.email == email) with
    | some c => (some c, contacts)
    | none =>
      if faults.createFails then (none, contacts)
      else
        let p := splitNameB name
        let newC : EContact :=
          { id := freshId, email := email, email2 := none, email3 := none,
            first_name := p.1, last_name := p.2,
            created_at := some (toISOString now), last_interaction := none }
        (some newC, contacts ++ [newC])

/-- `findContactByEmail` of part_001 lines 307-331: first contact matching
the identifier in any of the `email`, `email2`, `email3` columns. -/
def findContactByEmail (contacts : List EContact) (email : String) : Option EContact :=
  contacts.find? (fun c =>
    c.email == some email || c.email2 == some email || c.email3 == some email)

/-- `createContact` of part_001 lines 334-367 (email flavour). -/
def createContactByEmail (contacts : List EContact) (email : String)
    (name : Option String) (freshId : Nat) (now : Int) :
    Option EContact × List EContact :=
  let p := splitNameB name
  let newC : EContact :=
    { id := freshId, email := some email, email2 := none, email3 := none,
      first_name := p.1, last_name := p.2,
      created_at := some (toISOString now), last_interaction := none }
  (some newC, contacts ++ [newC])

/-- `findOrCreateContact` of part_001 lines 370-386: falsy email gives null,
else find by any email column, else create. -/
def findOrCreateContact1 (contacts : List EContact) (email : Option String)
    (name : Option String) (freshId : Nat) (now : Int) :
    Option EContact × List EContact :=
  match email with
  | none => (none, contacts)
  | some e =>
    if e = "" then (none, contacts)
    else
      match findContactByEmail contacts e with
      | some c => (some c, contacts)
      | none => createContactByEmail contacts e name freshId now

/-- C2: both findOrCreateContact variants are idempotent in effect: if a
fault-free first call on identifier e returns a contact, a second fault-free
call with the same identifier returns the same contact (same id) and leaves
the contacts table unchanged (no new row). -/
theorem findOrCreateContact_idempotent :
    (∀ (contacts : List EContact) (e : String) (name : Option String)
        (i1 i2 : Nat) (n1 n2 : Int) (c : EContact) (contacts1 : List EContact),
      findOrCreateContact contacts ⟨false, false⟩ (some e) name i1 n1 = (some c, contacts1) →
      findOrCreateContact contacts1 ⟨false, false⟩ (some e) name i2 n2 = (some c, contacts1)) ∧
    (∀ (contacts : List EContact) (e : String) (name : Option String)
        (i1 i2 : Nat) (n1 n2 : Int) (c : EContact) (contacts1 : List EContact),
      findOrCreateContact1 contacts (some e) name i1 n1 = (some c, contacts1) →
      findOrCreateContact1 contacts1 (some e) name i2 n2 = (some c, contacts1)) := by
  constructor
  · intro contacts e name i1 i2 n1 n2 c contacts1 h
    simp only [findOrCreateContact, Bool.false_eq_true, if_false] at h ⊢
    cases hf : contacts.find? (fun c => c.email == some e) with
    | some c' =>
      rw [hf] at h
      obtain ⟨hc, hdb⟩ := Prod.mk.injEq .. |>.mp h
      subst hdb
      rw [hf, hc]
    | none =>
      rw [hf] at h
      obtain ⟨hc, hdb⟩ := Prod.mk.injEq .. |>.mp h
      subst hdb
      rw [List.find?_append, hf]
      simp only [Option.none_or, List.find?_cons]
      have : ((⟨i1, some e, none, none, (splitNameB name).1, (splitNameB name).2,
          some (toISOString n1), none⟩ : EContact).email == some e) = true := by
        simp
      rw [this]
      rw [← hc]
  · intro contacts e name i1 i2 n1 n2 c contacts1 h
    simp only [findOrCreateContact1] at h ⊢
    by_cases he : e = ""
    · rw [if_pos he] at h
      simp at h
    · rw [if_neg he] at h ⊢
      cases hf : findContactByEmail contacts e with
      | some c' =>
        rw [hf] at h
        obtain ⟨hc, hdb⟩ := Prod.mk.injEq .. |>.mp h
        subst hdb
        rw [hf, hc]
      | none =>
        rw [hf] at h
        simp only [createContactByEmail] at h
        obtain ⟨hc, hdb⟩ := Prod.mk.injEq .. |>.mp h
        subst hdb
        have hfind : findContactByEmail
            (contacts ++ [⟨i1, some e, none, none, (splitNameB name).1, (splitNameB name).2,
              some (toISOString n1), none⟩]) e =
            some ⟨i1, some e, none, none, (splitNameB name).1, (splitNameB name).2,
              some (toISOString n1), none⟩ := by
          unfold findContactByEmail at hf ⊢
          rw [List.find?_append, hf]
          simp
        rw [hfind, ← hc]

/-- Witness for C2: a concrete first call creates a contact and the second
call returns it unchanged. -/
theorem findOrCreateContact_idempotent_witness :
    findOrCreateContact [] ⟨false, false⟩ (some "a@b.c") (some "John Doe") 1 0 =
      (some ⟨1, some "a@b.c", none, none, some "John", some "Doe",
        some "1970-01-01T00:00:00.000Z", none⟩,
       [⟨1, some "a@b.c", none, none, some "John", some "Doe",
        some "1970-01-01T00:00:00.000Z", none⟩]) ∧
    findOrCreateContact
      [⟨1, some "a@b.c", none, none, some "John", some "Doe",
        some "1970-01-01T00:00:00.000Z", none⟩] ⟨false, false⟩
      (some "a@b.c") (some "John Doe") 2 0 =
      (some ⟨1, some "a@b.c", none, none, some "John", some "Doe",
        some "1970-01-01T00:00:00.000Z", none⟩,
       [⟨1, some "a@b.c", none, none, some "John", some "Doe",
        some "1970-01-01T00:00:00.000Z", none⟩]) :=
  ⟨by decide, findOrCreateContact_idempotent.1 [] "a@b.c" (some "John Doe") 1 2 0 0
    ⟨1, some "a@b.c", none, none, some "John", some "Doe",
      some "1970-01-01T00:00:00.000Z", none⟩
    [⟨1, some "a@b.c", none, none, some "John", some "Doe",
      some "1970-01-01T00:00:00.000Z", none⟩] (by decide)⟩

/-! ## WhatsApp webhook (src/functions/whatsapp-webhook.js)

Contacts keyed by phone; the handler parses a TimelinesAI payload, resolves
or creates a contact, writes an interaction row, and advances the contact's
`last_interaction`.  Interaction dates are carried as UTC day numbers (see
the header comment). -/

structure WContact where
  id : Nat
  mobile : Option String
  email : Option String
  first_name : Option String
  last_name : Option String
  contact_category : Option String
  last_interaction : Option Int
deriving DecidableEq, Repr

structure WInteraction where
  interaction_date : Int
  interaction_type : String
  contact_mobile : Option String
  contact_email : Option String
  direction : String
  note : String
  contact_id : Option Nat
deriving DecidableEq, Repr

structure WADb where
  contacts : List WContact
  interactions : List WInteraction
deriving DecidableEq, Repr

/-- Store faults observable by the whatsapp handler, one per call site; for
the interactions insert the injected value is the store error's message. -/
structure WAFaults where
  findFails : Bool
  createFails : Bool
  insertError : Option String
  fetchLIFails : Bool
  updateLIFails : Bool
deriving DecidableEq, Repr

structure WAChat where
  is_group : Bool
  phone : Option String
  full_name : Option String
deriving DecidableEq, Repr

structure WAMessage where
  timestamp : Int
  direction : Option String
  text : Option String
  message_uid : Option String
deriving DecidableEq, Repr

structure WAPayload where
  chat : Option WAChat
  message : Option WAMessage
deriving DecidableEq, Repr

/-- One normalized message tuple produced by `parseWhatsAppEvent`. -/
structure WAMsg where
  phoneNumber : String
  senderName : Option String
  timestamp : Int
  direction : Option String
  text : Option String
  messageId : Option String
deriving DecidableEq, Repr

/-- HTTP response: status code plus the JSON body fields any handler variant
ever emits. -/
structure RespBody where
  success : Option Bool
  message : Option String
  error : Option String
  details : Option String
deriving DecidableEq, Repr

structure Response where
  statusCode : Nat
  body : RespBody
deriving DecidableEq, Repr

/-- `parseWhatsAppEvent` lines 154-174: skip group chats and chats without a
(truthy) phone; a payload with a `message` yields one normalized tuple. -/
def parseWhatsAppEvent (e : WAPayload) : List WAMsg :=
  match e.chat with
  | none => []
  | some ch =>
    if ch.is_group then []
    else
      match ch.phone with
      | none => []
      | some ph =>
        if ph = "" then []
        else
          match e.message with
          | some m => [⟨ph, ch.full_name, m.timestamp, m.direction, m.text, m.message_uid⟩]
          | none => []

/-- `isValidPhoneNumber` lines 177-180: at least ten digit characters. -/
def isValidPhoneNumber (p : String) : Bool :=
  decide (10 ≤ (p.data.filter Char.isDigit).length)

/-- `findContactByPhone` lines 36-54: first contact whose `mobile` equals the
formatted phone; a store error is caught and yields null. -/
def findContactByPhone (contacts : List WContact) (faults : WAFaults)
    (phoneNumber : String) : Option WContact :=
  if faults.findFails then none
  else contacts.find? (fun c => c.mobile == formatPhoneNumber (some phoneNumber))

/-- Name splitting of `createContact` lines 65-69: first token, then the
rest joined (an empty rest becomes null via `|| null`). -/
def splitNameA (name : Option String) : Option String × Option String :=
  match name with
  | none => (none, none)
  | some n =>
    if n = "" then (none, none)
    else
      let parts := splitOnSpace n
      (some (parts.headD ""), jsOrNullStr (some (joinSpace (parts.drop 1))))

/-- `createContact` lines 57-91: insert a contact with the formatted phone
and split name; a store error is caught and yields null. -/
def createContact (contacts : List WContact) (faults : WAFaults)
    (phoneNumber : String) (name : Option String) (freshId : Nat) :
    Option WContact × List WContact :=
  if faults.createFails then (none, contacts)
  else
    let p := splitNameA name
    let newC : WContact :=
      { id := freshId, mobile := formatPhoneNumber (some phoneNumber),
        email := none, first_name := p.1, last_name := p.2,
        contact_category := none, last_interaction := none }
    (some newC, contacts ++ [newC])

/-- `updateContactLastInteraction` lines 124-151 acting on the store: fetch
the row, apply the decision core, write back; every error is swallowed. -/
def updateContactLastInteractionDb (db : WADb) (faults : WAFaults)
    (contactId : Nat) (date : Int) : WADb :=
  if faults.fetchLIFails then db
  else
    match db.contacts.find? (fun c => c.id == contactId) with
    | none => db
    | some c =>
      if (updateContactLastInteraction c.last_interaction date).2 then
        if faults.updateLIFails then db
        else
          { db with contacts := db.contacts.map (fun c2 =>
              if c2.id == contactId then
                { c2 with last_interaction :=
                    (updateContactLastInteraction c.last_interaction date).1 }
              else c2) }
      else db

/-- Body of the `for` loop of the handler, lines 198-233, for one message:
skip invalid phones, resolve or create the contact, insert the interaction
(a store error there is rethrown, carrying the store state reached), then
advance `last_interaction` when a (truthy) contact id is present. -/
def processMessage (db : WADb) (faults : WAFaults) (freshId : Nat)
    (m : WAMsg) : Except (String × WADb) WADb :=
  if ¬ isValidPhoneNumber m.phoneNumber then .ok db
  else
    let formattedDate := Int.fdiv m.timestamp msPerDay
    let found := findContactByPhone db.contacts faults m.phoneNumber
    let cr := match found with
      | some c => (some c, db.contacts)
      | none => createContact db.contacts faults m.phoneNumber m.senderName freshId
    let contact := cr.1
    let db1 : WADb := { db with contacts := cr.2 }
    let idata : WInteraction :=
      { interaction_date := formattedDate,
        interaction_type := "WhatsApp",
        contact_mobile := formatPhoneNumber (some m.phoneNumber),
        contact_email := match contact with | some c => c.email | none => none,
        direction := if m.direction = some "sent" then "Outbound" else "Inbound",
        note := jsOrStr m.text "",
        contact_id := match contact with | some c => some c.id | none => none }
    match faults.insertError with
    | some e => .error (e, db1)
    | none =>
      let db2 : WADb := { db1 with interactions := db1.interactions ++ [idata] }
      .ok (match idata.contact_id with
           | some cid =>
             if cid ≠ 0 then updateContactLastInteractionDb db2 faults cid formattedDate
             else db2
           | none => db2)

/-- Sequential processing of the parsed messages; a thrown insert error
aborts the loop. -/
def runMessages (db : WADb) (faults : WAFaults) (freshId : Nat) :
    List WAMsg → Except (String × WADb) WADb
  | [] => .ok db
  | m :: rest =>
    match processMessage db faults freshId m with
    | .error e => .error e
    | .ok db' => runMessages db' faults freshId rest

/-- The inbound HTTP event: method and (already JSON-parsed) body; a parse
failure carries the exception message. -/
structure WAEvent where
  httpMethod : String
  body : Except String WAPayload
deriving Repr

/-- The Netlify handler, lines 183-241. -/
def waHandler (ev : WAEvent) (db : WADb) (faults : WAFaults) (freshId : Nat) :
    Response × WADb :=
  if ev.httpMethod ≠ "POST" then
    (⟨405, ⟨none, none, some "Method not allowed", none⟩⟩, db)
  else
    match ev.body with
    | .error msg => (⟨500, ⟨none, none, some msg, none⟩⟩, db)
    | .ok payload =>
      let messages := parseWhatsAppEvent payload
      if messages.isEmpty then
        (⟨200, ⟨some true, some "No individual chat messages to process", none, none⟩⟩, db)
      else
        match runMessages db faults freshId messages with
        | .ok db' => (⟨200, ⟨some true, none, none, none⟩⟩, db')
        | .error (msg, dbe) => (⟨500, ⟨none, none, some msg, none⟩⟩, dbe)

/-- C7: a POST whose payload has `chat.is_group = true` is answered 200 with
the explanatory success body and the store is left unchanged. -/
theorem waHandler_group_chat_noop (ev : WAEvent) (db : WADb) (faults : WAFaults)
    (freshId : Nat) (p : WAPayload) (ch : WAChat)
    (hm : ev.httpMethod = "POST") (hb : ev.body = .ok p)
    (hc : p.chat = some ch) (hg : ch.is_group = true) :
    waHandler ev db faults freshId =
      (⟨200, ⟨some true, some "No individual chat messages to process", none, none⟩⟩, db) := by
  have hparse : parseWhatsAppEvent p = [] := by
    simp [parseWhatsAppEvent, hc, hg]
  simp [waHandler, hm, hb, hparse]

/-- Witness for C7 at a concrete group-chat payload. -/
theorem waHandler_group_chat_noop_witness :
    waHandler
      ⟨"POST", .ok ⟨some ⟨true, some "+15551234567", some "John Doe"⟩,
        some ⟨1740528000000, some "received", some "hi", some "u1"⟩⟩⟩
      ⟨[], []⟩ ⟨false, false, none, false, false⟩ 1 =
      (⟨200, ⟨some true, some "No individual chat messages to process", none, none⟩⟩,
       ⟨[], []⟩) :=
  waHandler_group_chat_noop _ _ _ _ _ _ rfl rfl rfl rfl

/-- C9: a one-to-one message whose chat phone has fewer than ten digits is
skipped silently: the store is unchanged and the response is the plain 200
success body, the same one a fully processed request receives. -/
theorem waHandler_short_phone_skipped (ev : WAEvent) (db : WADb) (faults : WAFaults)
    (freshId : Nat) (p : WAPayload) (ch : WAChat) (ph : String) (m : WAMessage)
    (hm : ev.httpMethod = "POST") (hb : ev.body = .ok p)
    (hc : p.chat = some ch) (hg : ch.is_group = false)
    (hp : ch.phone = some ph) (hpne : ph ≠ "")
    (hmsg : p.message = some m)
    (hshort : (ph.data.filter Char.isDigit).length < 10) :
    waHandler ev db faults freshId = (⟨200, ⟨some true, none, none, none⟩⟩, db) := by
  have hparse : parseWhatsAppEvent p =
      [⟨ph, ch.full_name, m.timestamp, m.direction, m.text, m.message_uid⟩] := by
    simp [parseWhatsAppEvent, hc, hg, hp, hpne, hmsg]
  have hvalid : isValidPhoneNumber ph = false := by
    simp only [isValidPhoneNumber, decide_eq_false_iff_not, not_le]
    exact hshort
  simp [waHandler, hm, hb, hparse, runMessages, processMessage, hvalid]

/-- Witness for C9 at a concrete payload with a three-digit phone. -/
theorem waHandler_short_phone_skipped_witness :
    waHandler
      ⟨"POST", .ok ⟨some ⟨false, some "123", some "John Doe"⟩,
        some ⟨1740528000000, some "received", some "hi", some "u1"⟩⟩⟩
      ⟨[], []⟩ ⟨false, false, none, false, false⟩ 1 =
      (⟨200, ⟨some true, none, none, none⟩⟩, ⟨[], []⟩) :=
  waHandler_short_phone_skipped _ _ _ _ _ _ _ _ rfl rfl rfl rfl rfl (by decide)
    rfl (by decide)

/-- C6: when contact lookup and contact creation both fail, the handler still
writes exactly one interaction row, with null contact id and null contact
email, leaves the contacts table unchanged, and responds 200 success. -/
theorem waHandler_null_contact_still_writes (ev : WAEvent) (db : WADb)
    (faults : WAFaults) (freshId : Nat) (p : WAPayload) (ch : WAChat)
    (ph : String) (m : WAMessage)
    (hm : ev.httpMethod = "POST") (hb : ev.body = .ok p)
    (hc : p.chat = some ch) (hg : ch.is_group = false)
    (hp : ch.phone = some ph) (hpne : ph ≠ "")
    (hmsg : p.message = some m)
    (hlong : 10 ≤ (ph.data.filter Char.isDigit).length)
    (hff : faults.findFails = true) (hcf : faults.createFails = true)
    (hie : faults.insertError = none) :
    (waHandler ev db faults freshId).1 = ⟨200, ⟨some true, none, none, none⟩⟩ ∧
    ∃ row, (waHandler ev db faults freshId).2 =
        ⟨db.contacts, db.interactions ++ [row]⟩ ∧
      row.contact_id = none ∧ row.contact_email = none := by
  have hparse : parseWhatsAppEvent p =
      [⟨ph, ch.full_name, m.timestamp, m.direction, m.text, m.message_uid⟩] := by
    simp [parseWhatsAppEvent, hc, hg, hp, hpne, hmsg]
  have hvalid : isValidPhoneNumber ph = true := by
    simp only [isValidPhoneNumber, decide_eq_true_eq]
    exact hlong
  refine ⟨?_, ⟨⟨Int.fdiv m.timestamp msPerDay, "WhatsApp",
    formatPhoneNumber (some ph), none,
    if m.direction = some "sent" then "Outbound" else "Inbound",
    jsOrStr m.text "", none⟩, ?_, rfl, rfl⟩⟩ <;>
    simp [waHandler, hm, hb, hparse, runMessages, processMessage, hvalid,
      findContactByPhone, hff, createContact, hcf, hie]

/-- Witness for C6 at a concrete payload with both contact steps failing. -/
theorem waHandler_null_contact_still_writes_witness :
    ((waHandler
      ⟨"POST", .ok ⟨some ⟨false, some "+15551234567", some "John Doe"⟩,
        some ⟨1740528000000, some "received", some "hi", some "u1"⟩⟩⟩
      ⟨[], []⟩ ⟨true, true, none, false, false⟩ 1).1 =
      ⟨200, ⟨some true, none, none, none⟩⟩) ∧
    ∃ row, (waHandler
      ⟨"POST", .ok ⟨some ⟨false, some "+15551234567", some "John Doe"⟩,
        some ⟨1740528000000, some "received", some "hi", some "u1"⟩⟩⟩
      ⟨[], []⟩ ⟨true, true, none, false, false⟩ 1).2 =
        ⟨([] : List WContact), [] ++ [row]⟩ ∧
      row.contact_id = none ∧ row.contact_email = none :=
  waHandler_null_contact_still_writes _ _ _ _ _ _ _ _ rfl rfl rfl rfl rfl
    (by decide) rfl (by decide) rfl rfl rfl

/-- C3 amended, positive half: in the whatsapp-webhook.js variant a failing
interactions insert makes the handler respond 500 with the store error's
message in the body's error field. -/
theorem waHandler_insert_error_500 (ev : WAEvent) (db : WADb) (faults : WAFaults)
    (freshId : Nat) (p : WAPayload) (ch : WAChat) (ph : String) (m : WAMessage)
    (e : String)
    (hm : ev.httpMethod = "POST") (hb : ev.body = .ok p)
    (hc : p.chat = some ch) (hg : ch.is_group = false)
    (hp : ch.phone = some ph) (hpne : ph ≠ "")
    (hmsg : p.message = some m)
    (hlong : 10 ≤ (ph.data.filter Char.isDigit).length)
    (hie : faults.insertError = some e) :
    (waHandler ev db faults freshId).1 = ⟨500, ⟨none, none, some e, none⟩⟩ := by
  have hparse : parseWhatsAppEvent p =
      [⟨ph, ch.full_name, m.timestamp, m.direction, m.text, m.message_uid⟩] := by
    simp [parseWhatsAppEvent, hc, hg, hp, hpne, hmsg]
  have hvalid : isValidPhoneNumber ph = true := by
    simp only [isValidPhoneNumber, decide_eq_true_eq]
    exact hlong
  simp [waHandler, hm, hb, hparse, runMessages, processMessage, hvalid, hie]

/-- Witness for C3 amended at a concrete payload and store error. -/
theorem waHandler_insert_error_500_witness :
    (waHandler
      ⟨"POST", .ok ⟨some ⟨false, some "+15551234567", some "John Doe"⟩,
        some ⟨1740528000000, some "received", some "hi", some "u1"⟩⟩⟩
      ⟨[], []⟩ ⟨false, false, some "insert failed", false, false⟩ 1).1 =
      ⟨500, ⟨none, none, some "insert failed", none⟩⟩ :=
  waHandler_insert_error_500 _ _ _ _ _ _ _ _ _ rfl rfl rfl rfl rfl (by decide)
    rfl (by decide) rfl

/-! ## Email-forward webhook (part_002, part_003)

Same store as the email-contact section; part_003 additionally advances
`last_interaction`.  Its `createInteraction` (part_002/003 lines 66-79)
catches a store error and returns null instead of rethrowing, so the
handler proceeds to its 200 response regardless. -/

structure EInteraction where
  interaction_date : Int
  interaction_type : String
  contact_email : Option String
  direction : String
  note : String
  contact_id : Option Nat
deriving DecidableEq, Repr

structure EDb where
  contacts : List EContact
  interactions : List EInteraction
deriving DecidableEq, Repr

/-- Store faults observable by the email-forward handler. -/
structure EmailFaults where
  foc : FocFaults
  insertFails : Bool
  fetchLIFails : Bool
  updateLIFails : Bool
deriving DecidableEq, Repr

/-- `updateContactLastInteraction` of part_003 lines 86-113 acting on the
email store; every error is swallowed. -/
def updateContactLastInteractionEDb (db : EDb) (faults : EmailFaults)
    (contactId : Nat) (date : Int) : EDb :=
  if faults.fetchLIFails then db
  else
    match db.contacts.find? (fun c => c.id == contactId) with
    | none => db
    | some c =>
      if (updateContactLastInteraction c.last_interaction date).2 then
        if faults.updateLIFails then db
        else
          { db with contacts := db.contacts.map (fun c2 =>
              if c2.id == contactId then
                { c2 with last_interaction :=
                    (updateContactLastInteraction c.last_interaction date).1 }
              else c2) }
      else db

theorem updateContactLastInteractionEDb_interactions (db : EDb)
    (faults : EmailFaults) (contactId : Nat) (date : Int) :
    (updateContactLastInteractionEDb db faults contactId date).interactions =
      db.interactions := by
  unfold updateContactLastInteractionEDb
  split
  · rfl
  · split
    · rfl
    · split
      · split <;> rfl
      · rfl

/-- The fields of the email-forward payload the handler reads
(`from email`, `to email`, `from name`, `to name`, `date`, `subject`). -/
structure EmailPayload where
  fromEmail : Option String
  toEmail : Option String
  fromName : Option String
  toName : Option String
  date : Int
  subject : Option String
deriving DecidableEq, Repr

structure EmailEvent where
  httpMethod : String
  body : Except String EmailPayload
deriving Repr

/-- The Netlify handler of part_003 lines 116-182 (part_002 lines 82-140 is
the same without the `last_interaction` update step). -/
def emailHandler (ev : EmailEvent) (db : EDb) (faults : EmailFaults)
    (freshId : Nat) (now : Int) : Response × EDb :=
  if ev.httpMethod ≠ "POST" then
    (⟨405, ⟨none, none, some "Method not allowed", none⟩⟩, db)
  else
    match ev.body with
    | .error msg => (⟨500, ⟨none, none, some "Failed to process webhook", some msg⟩⟩, db)
    | .ok w =>
      let direction := if w.fromEmail == some "simone@cimminelli.com"
        then "Outbound" else "Inbound"
      let contactEmail := if direction = "Inbound" then w.fromEmail else w.toEmail
      let contactName := if direction = "Inbound" then w.fromName else w.toName
      let cr := findOrCreateContact db.contacts faults.foc contactEmail contactName
        freshId now
      let contact := cr.1
      let db1 : EDb := { db with contacts := cr.2 }
      let idata : EInteraction :=
        { interaction_date := Int.fdiv w.date msPerDay,
          interaction_type := "Email",
          contact_email := contactEmail,
          direction := direction,
          note := jsOrStr w.subject "No subject",
          contact_id := match contact with | some c => some c.id | none => none }
      let db2 : EDb := if faults.insertFails then db1
        else { db1 with interactions := db1.interactions ++ [idata] }
      let db3 : EDb := match idata.contact_id with
        | some cid =>
          if cid ≠ 0 then
            updateContactLastInteractionEDb db2 faults cid (Int.fdiv w.date msPerDay)
          else db2
        | none => db2
      (⟨200, ⟨some true, some "Email interaction logged successfully", none, none⟩⟩, db3)

/-- C3 counterexample: in the email-forward variant a failing interactions
insert does not produce a 500: the handler answers 200 with a success body
and no error field, even though no interaction row was written. -/
theorem createInteraction_failure_responds_200 :
    (emailHandler ⟨"POST", .ok ⟨some "a@x.com", some "b@y.com", some "Alice",
        some "Bob", 1740528000000, some "Hello"⟩⟩ ⟨[], []⟩
        ⟨⟨false, false⟩, true, false, false⟩ 1 0).1.statusCode = 200 ∧
    (emailHandler ⟨"POST", .ok ⟨some "a@x.com", some "b@y.com", some "Alice",
        some "Bob", 1740528000000, some "Hello"⟩⟩ ⟨[], []⟩
        ⟨⟨false, false⟩, true, false, false⟩ 1 0).1.body.error = none ∧
    (emailHandler ⟨"POST", .ok ⟨some "a@x.com", some "b@y.com", some "Alice",
        some "Bob", 1740528000000, some "Hello"⟩⟩ ⟨[], []⟩
        ⟨⟨false, false⟩, true, false, false⟩ 1 0).2.interactions = [] := by
  refine ⟨by decide, by decide, by decide⟩

/-- C8: when the payload's from-email is the owner's address the written
interaction row is Outbound with the to-email as contact email and its
contact id comes from resolving or creating the contact by the to-email and
to-name; otherwise the row is Inbound and keyed by the from-email and
from-name. -/
theorem emailHandler_direction_contact (ev : EmailEvent) (db : EDb)
    (faults : EmailFaults) (freshId : Nat) (now : Int) (w : EmailPayload)
    (hm : ev.httpMethod = "POST") (hb : ev.body = .ok w)
    (hni : faults.insertFails = false) :
    (w.fromEmail = some "simone@cimminelli.com" →
      (emailHandler ev db faults freshId now).2.interactions =
        db.interactions ++
          [⟨Int.fdiv w.date msPerDay, "Email", w.toEmail, "Outbound",
            jsOrStr w.subject "No subject",
            match (findOrCreateContact db.contacts faults.foc w.toEmail w.toName
              freshId now).1 with
            | some c => some c.id
            | none => none⟩]) ∧
    (w.fromEmail ≠ some "simone@cimminelli.com" →
      (emailHandler ev db faults freshId now).2.interactions =
        db.interactions ++
          [⟨Int.fdiv w.date msPerDay, "Email", w.fromEmail, "Inbound",
            jsOrStr w.subject "No subject",
            match (findOrCreateContact db.contacts faults.foc w.fromEmail w.fromName
              freshId now).1 with
            | some c => some c.id
            | none => none⟩]) := by
  constructor
  · intro hFrom
    cases hcc : (findOrCreateContact db.contacts faults.foc w.toEmail w.toName
        freshId now).1 with
    | none =>
      simp +decide [emailHandler, hm, hb, hFrom, hni, hcc,
        updateContactLastInteractionEDb_interactions]
    | some c =>
      by_cases hid : c.id = 0 <;>
        simp +decide [emailHandler, hm, hb, hFrom, hni, hcc, hid,
          updateContactLastInteractionEDb_interactions]
  · intro hFrom
    have hbeq : (w.fromEmail == some "simone@cimminelli.com") = false := by
      simpa using hFrom
    cases hcc : (findOrCreateContact db.contacts faults.foc w.fromEmail w.fromName
        freshId now).1 with
    | none =>
      simp +decide [emailHandler, hm, hb, hbeq, hni, hcc,
        updateContactLastInteractionEDb_interactions]
    | some c =>
      by_cases hid : c.id = 0 <;>
        simp +decide [emailHandler, hm, hb, hbeq, hni, hcc, hid,
          updateContactLastInteractionEDb_interactions]

/-- Witness for C8 at a concrete owner-sent payload. -/
theorem emailHandler_direction_contact_witness :
    ((some "simone@cimminelli.com" : Option String) = some "simone@cimminelli.com" →
      (emailHandler ⟨"POST", .ok ⟨some "simone@cimminelli.com", some "b@y.com",
          some "Simone C", some "Bob B", 1740528000000, some "Hello"⟩⟩ ⟨[], []⟩
          ⟨⟨false, false⟩, false, false, false⟩ 1 0).2.interactions =
        [] ++ [⟨Int.fdiv 1740528000000 msPerDay, "Email", some "b@y.com", "Outbound",
            jsOrStr (some "Hello") "No subject",
            match (findOrCreateContact [] ⟨false, false⟩ (some "b@y.com")
              (some "Bob B") 1 0).1 with
            | some c => some c.id
            | none => none⟩]) ∧
    ((some "simone@cimminelli.com" : Option String) ≠ some "simone@cimminelli.com" →
      (emailHandler ⟨"POST", .ok ⟨some "simone@cimminelli.com", some "b@y.com",
          some "Simone C", some "Bob B", 1740528000000, some "Hello"⟩⟩ ⟨[], []⟩
          ⟨⟨false, false⟩, false, false, false⟩ 1 0).2.interactions =
        [] ++ [⟨Int.fdiv 1740528000000 msPerDay, "Email",
            some "simone@cimminelli.com", "Inbound",
            jsOrStr (some "Hello") "No subject",
            match (findOrCreateContact [] ⟨false, false⟩
              (some "simone@cimminelli.com") (some "Simone C") 1 0).1 with
            | some c => some c.id
            | none => none⟩]) :=
  emailHandler_direction_contact
    ⟨"POST", .ok ⟨some "simone@cimminelli.com", some "b@y.com",
      some "Simone C", some "Bob B", 1740528000000, some "Hello"⟩⟩
    ⟨[], []⟩ ⟨⟨false, false⟩, false, false, false⟩ 1 0
    ⟨some "simone@cimminelli.com", some "b@y.com", some "Simone C",
      some "Bob B", 1740528000000, some "Hello"⟩ rfl rfl rfl

/-! ## HubSpot email webhook (part_004) -/

/-- JS truthiness of a nullable number (0 is falsy). -/
def jsTruthyNum : Option Nat → Bool
  | none => false
  | some n => n ≠ 0

/-- The email properties of a HubSpot payload that the parser reads. -/
structure HSProps where
  hs_email_direction : Option String
  subject : Option String
  «from» : Option String
  «to» : Option String
  from_name : Option String
deriving DecidableEq, Repr

structure HSEvent where
  objectId : Option Nat
  objectType : Option String
  properties : Option HSProps
  occurredAt : Option Int
deriving DecidableEq, Repr

/-- The normalized record returned by `parseHubSpotEmailEvent`. -/
structure HSParsed where
  contactEmail : String
  senderName : Option String
  timestamp : Int
  direction : String
  subject : String
deriving DecidableEq, Repr

/-- `parseHubSpotEmailEvent` of part_004 lines 111-143.  `occurredAt ||
new Date().toISOString()` receives the current time as a parameter. -/
def parseHubSpotEmailEvent (e : HSEvent) (now : Int) : Option HSParsed :=
  if !jsTruthyNum e.objectId || e.objectType != some "EMAIL" then none
  else
    let p := e.properties.getD ⟨none, none, none, none, none⟩
    let direction := jsOrStr p.hs_email_direction "UNKNOWN"
    let subject := jsOrStr p.subject "No subject"
    let fromEmail := jsOrNullStr p.«from»
    let toEmail := jsOrNullStr p.«to»
    let timestamp := e.occurredAt.getD now
    let contactEmail := match toEmail with
      | some t => some t
      | none => fromEmail
    let senderName := jsOrNullStr p.from_name
    match contactEmail with
    | none => none
    | some ce =>
      some ⟨ce, senderName, timestamp,
        if direction = "INBOUND" then "Inbound" else "Outbound", subject⟩

/-- C10: an accepted HubSpot email event is mapped to direction Inbound
exactly when `properties.hs_email_direction` is literally INBOUND (a missing
or falsy value defaults to UNKNOWN, hence Outbound, and so does every other
value), and the contact email comes from the to property, falling back to
the from property only when to is absent (falsy). -/
theorem parseHubSpotEmailEvent_fields (e : HSEvent) (now : Int) (r : HSParsed)
    (h : parseHubSpotEmailEvent e now = some r) :
    (r.direction = "Inbound" ↔
      e.properties.bind (fun p => p.hs_email_direction) = some "INBOUND") ∧
    (r.direction = "Inbound" ∨ r.direction = "Outbound") ∧
    (∀ t, jsOrNullStr ((e.properties.getD ⟨none, none, none, none, none⟩).«to») = some t →
      r.contactEmail = t) ∧
    (jsOrNullStr ((e.properties.getD ⟨none, none, none, none, none⟩).«to») = none →
      jsOrNullStr ((e.properties.getD ⟨none, none, none, none, none⟩).«from») =
        some r.contactEmail) := by
  simp only [parseHubSpotEmailEvent] at h
  split at h
  · exact absurd h (by simp)
  · split at h
    · exact absurd h (by simp)
    · rename_i hce
      obtain rfl := (Option.some.injEq ..).mp h
      refine ⟨?_, ?_, ?_, ?_⟩
      · cases hp : e.properties with
        | none => simp +decide [hp, jsOrStr]
        | some p =>
          cases hd : p.hs_email_direction with
          | none => simp +decide [hp, hd, jsOrStr]
          | some s =>
            by_cases hs : s = ""
            · simp +decide [hp, hd, hs, jsOrStr]
            · by_cases hin : s = "INBOUND"
              · simp +decide [hp, hd, hs, hin, jsOrStr]
              · simp +decide [hp, hd, hs, hin, jsOrStr]
      · by_cases hin : jsOrStr (e.properties.getD
            ⟨none, none, none, none, none⟩).hs_email_direction "UNKNOWN" = "INBOUND" <;>
          simp [hin]
      · intro t ht
        rw [ht] at hce
        exact ((Option.some.injEq ..).mp hce).symm
      · intro ht
        rw [ht] at hce
        exact hce

/-- Witness for C10 at a concrete inbound HubSpot event. -/
theorem parseHubSpotEmailEvent_fields_witness :
    ((⟨"t@y.com", some "Fred", 1740528000000, "Inbound", "Sub"⟩ : HSParsed).direction
        = "Inbound" ↔
      (some (⟨some "INBOUND", some "Sub", some "f@x.com", some "t@y.com",
          some "Fred"⟩ : HSProps)).bind (fun p => p.hs_email_direction) =
        some "INBOUND") ∧
    ((⟨"t@y.com", some "Fred", 1740528000000, "Inbound", "Sub"⟩ : HSParsed).direction
        = "Inbound" ∨
     (⟨"t@y.com", some "Fred", 1740528000000, "Inbound", "Sub"⟩ : HSParsed).direction
        = "Outbound") ∧
    (∀ t, jsOrNullStr (((some (⟨some "INBOUND", some "Sub", some "f@x.com",
        some "t@y.com", some "Fred"⟩ : HSProps)).getD
          ⟨none, none, none, none, none⟩).«to») = some t →
      (⟨"t@y.com", some "Fred", 1740528000000, "Inbound", "Sub"⟩ : HSParsed).contactEmail
        = t) ∧
    (jsOrNullStr (((some (⟨some "INBOUND", some "Sub", some "f@x.com",
        some "t@y.com", some "Fred"⟩ : HSProps)).getD
          ⟨none, none, none, none, none⟩).«to») = none →
      jsOrNullStr (((some (⟨some "INBOUND", some "Sub", some "f@x.com",
        some "t@y.com", some "Fred"⟩ : HSProps)).getD
          ⟨none, none, none, none, none⟩).«from») =
        some (⟨"t@y.com", some "Fred", 1740528000000, "Inbound",
          "Sub"⟩ : HSParsed).contactEmail) :=
  parseHubSpotEmailEvent_fields
    ⟨some 5, some "EMAIL", some ⟨some "INBOUND", some "Sub", some "f@x.com",
      some "t@y.com", some "Fred"⟩, some 1740528000000⟩ 0
    ⟨"t@y.com", some "Fred", 1740528000000, "Inbound", "Sub"⟩ (by decide)
